import Mathlib

/-!
Complaint management portal: `backend/server.js`.

A shallow embedding of the Express/Mongoose backend.  Collections are lists of
documents in insertion order, `findOne` returns the first document matching the
query, and every route is a function from the request and the collection to
the JSON response and the new collection.

Conventions of the embedding:
* ObjectIds are natural numbers;
* a string field of a JSON body is `Option String`, `none` standing for a
  field that is absent (`undefined`) or `null`; the `role` of a registration,
  whose stored value depends on which JSON value it is, has a type of its own;
* `Date.now()` and the ObjectId generated for a new document are arguments of
  the route that uses them;
* `bcrypt.hash(·, 10)` and `bcrypt.compare` are arguments of the routes that
  call them;
* a signed token is represented by the payload it carries.
-/

namespace ComplaintPortal

/-! ## Values and responses -/

/-- JavaScript truthiness of an optional string: `undefined`, `null` and `''`
are falsy, every other string is truthy. -/
def truthy (v : Option String) : Bool :=
  match v with
  | none => false
  | some s => s != ""

/-- What a handler sends: `res.json(body)` or `res.status(code).json({ msg })`. -/
inductive Res (α : Type) where
  | json (body : α)
  | fail (status : Nat) (msg : String)
deriving DecidableEq, Repr

/-! ## Models -/

/-- A document of `userSchema`. -/
structure User where
  id : Nat
  name : String
  email : Option String
  password : String
  role : Option String
  department : Option String
deriving DecidableEq, Repr

/-- A document of `complaintSchema`. -/
structure Complaint where
  id : Nat
  userId : Nat
  category : Option String
  title : Option String
  description : Option String
  imagePath : Option String
  status : String
  assignedTo : Option Nat
  repairNotes : Option String
  createdAt : Int
  updatedAt : Option Int
deriving DecidableEq, Repr

/-- The `enum` of `userSchema.role`. -/
def userRoles : List String := ["student", "faculty", "technician", "admin"]

/-- The `enum` of `complaintSchema.status`. -/
def complaintStatuses : List String := ["Pending", "In Progress", "Resolved"]

/-- The identity `authenticate` puts in `req.user`: the decoded payload of a
token whose role is a string. -/
structure Token where
  id : Nat
  role : String
deriving DecidableEq, Repr

/-- The object given to `jwt.sign`: `{ id: user._id, role: user.role }`, the
role being whatever the stored document holds. -/
structure Payload where
  id : Nat
  role : Option String
deriving DecidableEq, Repr

/-- The JSON value a registration carries as `role`. -/
inductive RoleField where
  /-- No `role` field (`undefined`). -/
  | absent
  /-- JSON `null`. -/
  | null
  /-- A JSON string. -/
  | str (s : String)
  /-- An object whose `_id` is a string. -/
  | idObject (id : String)
  /-- Any other value: a number, a boolean, an array, an object without a string `_id`. -/
  | other
deriving DecidableEq, Repr

/-- The `user` object of the register and login responses; `role` is the value
the request carried. -/
structure PublicUser where
  id : Nat
  name : Option String
  email : Option String
  role : RoleField
deriving DecidableEq, Repr

/-- The body of a successful register or login response. -/
structure AuthPayload where
  token : Payload
  user : PublicUser
deriving DecidableEq, Repr

/-- Why `user.save()` rejects. -/
inductive SaveError where
  /-- A schema validator or a cast failed. -/
  | validation
  /-- The unique index on `email` refused the document. -/
  | duplicateKey
deriving DecidableEq, Repr

/-! ## Store primitives -/

/-- The call `Model.findOne(query)`: the first document that matches. -/
def findOne {α : Type} (query : α → Bool) (docs : List α) : Option α :=
  docs.find? query

/-- The call `user.save()` under `userSchema`: `name` and `password` are required,
a `role` that is a string has to be in the enum, and the sparse unique index on
`email` refuses a second document with the same email.  On success the
document is appended. -/
def saveUser (users : List User) (u : User) : Except SaveError (List User) :=
  if u.name = "" then .error .validation
  else if u.password = "" then .error .validation
  else if (∃ r, u.role = some r ∧ ¬ r ∈ userRoles) then .error .validation
  else if u.email.isSome ∧ users.any (fun v => v.email == u.email) = true then
    .error .duplicateKey
  else .ok (users ++ [u])

/-- The call `Complaint.findByIdAndUpdate(id, update, { new: true })`: the first
document whose `_id` is `id` is replaced by its update and returned; when there
is none the result is `null` and nothing changes.  No validator runs (the call
passes no `runValidators`). -/
def findByIdAndUpdate (id : Nat) (update : Complaint → Complaint) :
    List Complaint → Option Complaint × List Complaint
  | [] => (none, [])
  | c :: cs =>
    if c.id = id then (some (update c), update c :: cs)
    else ((findByIdAndUpdate id update cs).1, c :: (findByIdAndUpdate id update cs).2)

/-- The call `Complaint.findById(id)`: the first document whose `_id` is `id`. -/
def findById (id : Nat) (cs : List Complaint) : Option Complaint :=
  findOne (fun c => c.id == id) cs

/-! ## Middleware -/

/-- The middleware `authorize(...roles)`: a role that is not listed gets 403
and the handler `next` is not run; otherwise `next` runs. -/
def authorize {σ α : Type} (roles : List String) (user : Token)
    (next : σ → Res α × σ) (s : σ) : Res α × σ :=
  if !roles.contains user.role then (.fail 403 "Access denied", s)
  else next s

/-! ## Auth routes -/

/-- The fields `POST /api/auth/register` reads from `req.body`. -/
structure RegisterBody where
  name : Option String
  email : Option String
  password : Option String
  role : RoleField
  department : Option String
deriving DecidableEq, Repr

/-- What Mongoose's String caster and the schema default make of the `role`
given to `new User`: the default `'student'` for an absent role, `null` for
`null`, a string as it is, the `_id` of an object that has a string `_id`.  For
any other value the result is `none`: a number or a boolean is cast to a string
that is not in the enum and an array or a plain object is not cast at all, so
that `save` rejects the document. -/
def castRole : RoleField → Option (Option String)
  | .absent => some (some "student")
  | .null => some none
  | .str s => some (some s)
  | .idObject id => some (some id)
  | .other => none

/-- The document `new User({...})` builds in the register route, with `role`
the cast of the request's role. -/
def newUser (hash : String → String) (oid : Nat) (body : RegisterBody)
    (role : Option String) : User :=
  { id := oid
    name := body.name.getD ""
    email := if body.role = .str "technician" then none else body.email
    password := hash (body.password.getD "")
    role := role
    department := if body.role = .str "technician" then none else body.department }

/-- The `try` block of the register route after the email check: hash the
password, build the document, save it, sign the token and answer. -/
def saveAndSign (hash : String → String) (errMessage : SaveError → String) (oid : Nat)
    (body : RegisterBody) (users : List User) : Res AuthPayload × List User :=
  match castRole body.role with
  | none => (.fail 500 ("Server error: " ++ errMessage .validation), users)
  | some role =>
    let user := newUser hash oid body role
    match saveUser users user with
    | .error e => (.fail 500 ("Server error: " ++ errMessage e), users)
    | .ok users' =>
      (.json { token := { id := user.id, role := user.role }
               user := { id := user.id, name := body.name, email := user.email,
                         role := body.role } }, users')

/-- Route `POST /api/auth/register`; `errMessage` is the text of `err.message`
for a rejected `save`. -/
def register (hash : String → String) (errMessage : SaveError → String) (oid : Nat)
    (body : RegisterBody) (users : List User) : Res AuthPayload × List User :=
  if body.role = .str "admin" then
    (.fail 403 "Admin cannot be registered. Use seed-admin.js script.", users)
  else if body.role = .str "technician" ∧
      (!truthy body.name || !truthy body.password) = true then
    (.fail 400 "Name and password required for technician", users)
  else if body.role ≠ .str "technician" ∧
      (!truthy body.name || !truthy body.email || !truthy body.password
        || !truthy body.department) = true then
    (.fail 400 "All fields required", users)
  else if body.role ≠ .str "technician" ∧
      (findOne (fun u => u.email == body.email) users).isSome = true then
    (.fail 400 "Email already exists", users)
  else saveAndSign hash errMessage oid body users

/-- The fields `POST /api/auth/login` reads from `req.body`. -/
structure LoginBody where
  email : Option String
  password : String
  role : String
deriving DecidableEq, Repr

/-- The query of the login route: `{ role }`, with `email` added unless the
role is technician. -/
def loginQuery (body : LoginBody) (u : User) : Bool :=
  u.role == some body.role && (body.role == "technician" || u.email == body.email)

/-- Route `POST /api/auth/login`. -/
def login (compare : String → String → Bool) (body : LoginBody)
    (users : List User) : Res AuthPayload :=
  match findOne (loginQuery body) users with
  | none => .fail 400 "Invalid credentials"
  | some user =>
    if !compare body.password user.password then .fail 400 "Invalid credentials"
    else .json { token := { id := user.id, role := user.role }
                 user := { id := user.id, name := some user.name, email := user.email,
                           role := .str body.role } }

/-! ## Complaint routes -/

/-- The fields of a complaint submission; `status`, `assignedTo` and
`repairNotes` may be sent but the route does not read them. -/
structure ComplaintBody where
  category : Option String
  title : Option String
  description : Option String
  status : Option String
  assignedTo : Option Nat
  repairNotes : Option String
deriving DecidableEq, Repr

/-- Route `POST /api/complaints` for the authenticated `user`; `file` is the
stored filename of the uploaded image, if any.  The schema defaults give
`status` and `createdAt`. -/
def createComplaint (oid : Nat) (now : Int) (user : Token) (body : ComplaintBody)
    (file : Option String) (cs : List Complaint) : Res Complaint × List Complaint :=
  let complaint : Complaint :=
    { id := oid
      userId := user.id
      category := body.category
      title := body.title
      description := body.description
      imagePath := file.map (fun filename => "/uploads/" ++ filename)
      status := "Pending"
      assignedTo := none
      repairNotes := none
      createdAt := now
      updatedAt := none }
  (.json complaint, cs ++ [complaint])

/-- The `technicianId` of an assign request body. -/
inductive IdField where
  | absent
  | null
  | empty
  | oid (id : Nat)
deriving DecidableEq, Repr

/-- The expression `req.body.technicianId || null`. -/
def IdField.orNull : IdField → Option Nat
  | .oid id => some id
  | _ => none

/-- The update object of the assign route. -/
def assignUpdate (now : Int) (technicianId : IdField) (c : Complaint) : Complaint :=
  { c with assignedTo := technicianId.orNull, status := "In Progress", updatedAt := some now }

/-- What `populate('assignedTo', 'name')` puts in place of the assignee's id:
the `_id` and the `name` of the user document. -/
structure Assignee where
  id : Nat
  name : String
deriving DecidableEq, Repr

/-- A complaint document after `populate('assignedTo', 'name')`. -/
structure PopulatedComplaint where
  id : Nat
  userId : Nat
  category : Option String
  title : Option String
  description : Option String
  imagePath : Option String
  status : String
  assignedTo : Option Assignee
  repairNotes : Option String
  createdAt : Int
  updatedAt : Option Int
deriving DecidableEq, Repr

/-- The call `.populate('assignedTo', 'name')` on a complaint: the assignee's id
is replaced by the `_id` and `name` of the user with that id, and by `null`
when no user has it. -/
def populateAssignedTo (users : List User) (c : Complaint) : PopulatedComplaint :=
  { id := c.id
    userId := c.userId
    category := c.category
    title := c.title
    description := c.description
    imagePath := c.imagePath
    status := c.status
    assignedTo := c.assignedTo.bind fun a =>
      (findOne (fun u => u.id == a) users).map fun u => { id := u.id, name := u.name }
    repairNotes := c.repairNotes
    createdAt := c.createdAt
    updatedAt := c.updatedAt }

/-- Route `PUT /api/complaints/:id/assign`; `users` is the user collection
`populate` reads when the request is handled. -/
def assignTechnician (users : List User) (now : Int) (user : Token) (id : Nat)
    (technicianId : IdField) :
    List Complaint → Res (Option PopulatedComplaint) × List Complaint :=
  authorize ["admin"] user fun cs =>
    (.json ((findByIdAndUpdate id (assignUpdate now technicianId) cs).1.map
        (populateAssignedTo users)),
      (findByIdAndUpdate id (assignUpdate now technicianId) cs).2)

/-- The fields `PUT /api/complaints/:id/status` reads from `req.body`. -/
structure StatusBody where
  status : String
  repairNotes : Option String
deriving DecidableEq, Repr

/-- The update object of the status route: `status` and `updatedAt` always,
`repairNotes` only when the request carries a truthy one. -/
def statusUpdate (now : Int) (body : StatusBody) (c : Complaint) : Complaint :=
  { c with
    status := body.status
    updatedAt := some now
    repairNotes := if truthy body.repairNotes then body.repairNotes else c.repairNotes }

/-- Route `PUT /api/complaints/:id/status`. -/
def updateStatus (now : Int) (user : Token) (id : Nat) (body : StatusBody) :
    List Complaint → Res (Option Complaint) × List Complaint :=
  authorize ["admin", "technician"] user fun cs =>
    (.json (findByIdAndUpdate id (statusUpdate now body) cs).1,
      (findByIdAndUpdate id (statusUpdate now body) cs).2)

/-! ## Reports -/

/-- The call `Complaint.countDocuments({ status })`. -/
def countStatus (status : String) (cs : List Complaint) : Nat :=
  cs.countP (fun c => c.status == status)

/-- The expression `{ $subtract: ['$updatedAt', '$createdAt'] }`, in
milliseconds; `null` for a document without `updatedAt`. -/
def resolutionTime (c : Complaint) : Option Int :=
  c.updatedAt.map (fun u => u - c.createdAt)

/-- Rounding to the nearest integer, a tie going to the even one. -/
def roundHalfEven (x : ℚ) : ℤ :=
  if x - ⌊x⌋ < 1 / 2 then ⌊x⌋
  else if 1 / 2 < x - ⌊x⌋ then ⌊x⌋ + 1
  else if ⌊x⌋ % 2 = 0 then ⌊x⌋ else ⌊x⌋ + 1

/-- The IEEE 754 double nearest to `q` (round to nearest, ties to even), given
by its exact value: `q` is rounded to 53 significant bits.  The exponent range
of doubles is not bounded here; the sums of 64-bit durations and their
quotients by a count, which is all this program computes, lie within it. -/
def toDouble (q : ℚ) : ℚ :=
  if q = 0 then 0
  else (roundHalfEven (q / 2 ^ (Int.log 2 |q| - 52)) : ℚ) * 2 ^ (Int.log 2 |q| - 52)

/-- The accumulator `$avg` on the values of `$subtract`, which are 64-bit
integers or `null`: the `null` values are skipped, and the result is `null`
when no value is left; otherwise the sum of the values is converted to a double
and divided, in double arithmetic, by their number. -/
def mongoAvg (vals : List (Option Int)) : Option ℚ :=
  let nums := vals.filterMap id
  if nums = [] then none
  else some (toDouble (toDouble (nums.sum : ℚ) / (nums.length : ℚ)))

/-- The `avgTime` pipeline: `$match` on Resolved, then one `$group` over all
matches.  No match gives no group, so the result is `[]`; otherwise it is the
single group, given here by its `avgTime`. -/
def avgTimeAggregate (cs : List Complaint) : List (Option ℚ) :=
  let resolved := cs.filter (fun c => c.status == "Resolved")
  if resolved = [] then [] else [mongoAvg (resolved.map resolutionTime)]

/-- The expression `avgTime[0]?.avgTime || 0`. -/
def avgOrZero (avgTime : List (Option ℚ)) : ℚ :=
  match avgTime.head? with
  | some (some t) => if t = 0 then 0 else t
  | _ => 0

/-- The `deptStats` pipeline: one group per category, with its count. -/
def deptStats (cs : List Complaint) : List (Option String × Nat) :=
  (cs.map (fun c => c.category)).dedup.map
    (fun k => (k, cs.countP (fun c => c.category == k)))

/-- The body of the reports response; `avgResolutionTime` is a JavaScript
number, given by its exact value. -/
structure Report where
  total : Nat
  pending : Nat
  inProgress : Nat
  resolved : Nat
  deptStats : List (Option String × Nat)
  avgResolutionTime : ℚ
deriving DecidableEq, Repr

/-- The object the reports handler sends. -/
def buildReport (cs : List Complaint) : Report :=
  { total := cs.length
    pending := countStatus "Pending" cs
    inProgress := countStatus "In Progress" cs
    resolved := countStatus "Resolved" cs
    deptStats := deptStats cs
    avgResolutionTime := avgOrZero (avgTimeAggregate cs) }

/-- Route `GET /api/reports`. -/
def getReports (user : Token) : List Complaint → Res Report × List Complaint :=
  authorize ["admin"] user fun cs => (.json (buildReport cs), cs)

/-! ## Histories of the complaint collection -/

/-- A request to one of the three routes that write the complaint collection,
with the identity `authenticate` decoded and, for an assign request, the user
collection at the time it is handled. -/
inductive Request where
  | create (oid : Nat) (now : Int) (user : Token) (body : ComplaintBody) (file : Option String)
  | assign (users : List User) (now : Int) (user : Token) (id : Nat) (technicianId : IdField)
  | status (now : Int) (user : Token) (id : Nat) (body : StatusBody)
deriving DecidableEq, Repr

/-- The collection after the server has handled the request. -/
def handle (cs : List Complaint) : Request → List Complaint
  | .create oid now user body file => (createComplaint oid now user body file cs).2
  | .assign users now user id technicianId =>
    (assignTechnician users now user id technicianId cs).2
  | .status now user id body => (updateStatus now user id body cs).2

/-- The collection after a sequence of requests, starting from `cs`. -/
def run (cs : List Complaint) (reqs : List Request) : List Complaint :=
  reqs.foldl handle cs

/-- The collections the three routes can produce from the empty one. -/
def Reachable (cs : List Complaint) : Prop :=
  ∃ reqs : List Request, run [] reqs = cs

/-- The registrations of a sequence of register requests, each with the hash
function and the ObjectId of its call. -/
def registerAll (errMessage : SaveError → String) (users : List User) :
    List ((String → String) × Nat × RegisterBody) → List User
  | [] => users
  | (hash, oid, body) :: rest =>
    registerAll errMessage (register hash errMessage oid body users).2 rest

/-! ## Fixtures

The users `seed-admin.js` inserts, with `bcrypt` replaced by a transparent
stand-in. -/

/-- A stand-in for `bcrypt.hash(·, 10)`. -/
def seedHash (password : String) : String := "$2a$10$" ++ password

/-- A stand-in for `bcrypt.compare`, matching `seedHash`. -/
def seedCompare (password hashed : String) : Bool := hashed == seedHash password

/-- The admin of `seed-admin.js`. -/
def seedAdmin : User :=
  { id := 1, name := "Facility Manager", email := some "admin@campus.com",
    password := seedHash "admin123", role := some "admin", department := some "Facility" }

/-- The first technician of `seed-admin.js`. -/
def seedMike : User :=
  { id := 2, name := "Mike Tech", email := some "mike@tech.com",
    password := seedHash "tech123", role := some "technician", department := none }

/-- The second technician of `seed-admin.js`. -/
def seedSarah : User :=
  { id := 3, name := "Sarah Fix", email := some "sarah@tech.com",
    password := seedHash "tech123", role := some "technician", department := none }

/-- The user collection after `seed-admin.js` has run on an empty database. -/
def seedUsers : List User := [seedAdmin, seedMike, seedSarah]

/-- A technician registered through the API after the seed, with a password of
their own. -/
def techRavi : User :=
  { id := 4, name := "Ravi", email := none, password := seedHash "ravi-pw",
    role := some "technician", department := none }

/-- A student. -/
def studentAsha : User :=
  { id := 5, name := "Asha", email := some "asha@campus.com", password := seedHash "asha-pw",
    role := some "student", department := some "CSE" }

/-- A complaint of the student, assigned to the first seeded technician. -/
def leak : Complaint :=
  { id := 10, userId := 5, category := some "Plumbing", title := some "Leak",
    description := some "Tap leaks", imagePath := none, status := "In Progress",
    assignedTo := some 2, repairNotes := none, createdAt := 1000, updatedAt := some 2000 }

/-! ## Auxiliary definitions for the statements -/

/-- Whether `id` is the `_id` of a user whose role is technician. -/
def isTechnician (users : List User) (id : Nat) : Bool :=
  users.any (fun u => u.id == id && u.role == some "technician")

/-- The ObjectId an assign request asks to store, if any. -/
def Request.assignee : Request → Option Nat
  | .assign _ _ _ _ technicianId => technicianId.orNull
  | _ => none

/-- The student files a complaint. -/
def fileLeak : Request :=
  .create 10 1000 { id := 5, role := "student" }
    { category := some "Plumbing", title := some "Leak", description := some "Tap leaks",
      status := none, assignedTo := none, repairNotes := none } none

/-- The complaints whose status is Resolved. -/
def resolvedComplaints (cs : List Complaint) : List Complaint :=
  cs.filter (fun c => c.status == "Resolved")

/-- The sum of `updatedAt - createdAt`, in milliseconds, over the Resolved
complaints.  (For a complaint without `updatedAt` the difference is taken as 0;
the theorems that use this definition are about collections where every
Resolved complaint has one.) -/
def totalResolutionTime (cs : List Complaint) : Int :=
  ((resolvedComplaints cs).map (fun c => c.updatedAt.getD c.createdAt - c.createdAt)).sum

/-- The statement of the report's average, in the words of the specification:
the arithmetic mean of `updatedAt - createdAt`, in milliseconds, over the
Resolved complaints, and 0 when there is none. -/
def meanResolutionTime (cs : List Complaint) : ℚ :=
  if (resolvedComplaints cs).length = 0 then 0
  else (totalResolutionTime cs : ℚ) / ((resolvedComplaints cs).length : ℚ)

/-- Three complaints are filed at the same time and resolved 1 ms, 1 ms and
2 ms later. -/
def quickFixes : List Request :=
  [ .create 21 1000 { id := 5, role := "student" }
      { category := some "Electrical", title := some "Bulb", description := none,
        status := none, assignedTo := none, repairNotes := none } none,
    .create 22 1000 { id := 5, role := "student" }
      { category := some "Electrical", title := some "Switch", description := none,
        status := none, assignedTo := none, repairNotes := none } none,
    .create 23 1000 { id := 5, role := "student" }
      { category := some "Electrical", title := some "Socket", description := none,
        status := none, assignedTo := none, repairNotes := none } none,
    .status 1001 { id := 2, role := "technician" } 21 { status := "Resolved", repairNotes := none },
    .status 1001 { id := 2, role := "technician" } 22 { status := "Resolved", repairNotes := none },
    .status 1002 { id := 2, role := "technician" } 23 { status := "Resolved", repairNotes := none } ]

/-- A technician sets a status that is not in the schema's enum. -/
def closeLeak : Request :=
  .status 3000 { id := 2, role := "technician" } 10 { status := "Closed", repairNotes := none }

/-- A technician resolves the complaint, with notes. -/
def resolveLeak : Request :=
  .status 3000 { id := 2, role := "technician" } 10
    { status := "Resolved", repairNotes := some "Fixed valve" }

/-- A complaint resolved 5000 ms after its creation. -/
def fixedFan : Complaint :=
  { id := 11, userId := 5, category := some "Electrical", title := some "Fan",
    description := none, imagePath := none, status := "Resolved",
    assignedTo := some 2, repairNotes := some "Replaced", createdAt := 1000,
    updatedAt := some 6000 }

/-- An admin's token. -/
def adminToken : Token := { id := 1, role := "admin" }

/-- A field that is missing (absent or `null`) or the empty string. -/
def missingOrEmpty (v : Option String) : Prop := v = none ∨ v = some ""

instance (v : Option String) : Decidable (missingOrEmpty v) :=
  inferInstanceAs (Decidable (v = none ∨ v = some ""))

/-- The response is one of the two validation failures of the register route
(status 400 with the message of the technician check or of the all-fields
check). -/
def isValidationError {α : Type} (r : Res α) : Prop :=
  r = .fail 400 "Name and password required for technician" ∨ r = .fail 400 "All fields required"

/-- The Conflict failure of the register route. -/
def emailConflict {α : Type} : Res α := .fail 400 "Email already exists"

/-- The users whose role is admin. -/
def admins (users : List User) : List User :=
  users.filter (fun u => u.role == some "admin")

/-- A student's registration. -/
def ashaRegistration : RegisterBody :=
  { name := some "Asha", email := some "asha@campus.com", password := some "asha-pw",
    role := .str "student", department := some "CSE" }

/-- A technician's registration that also sends an email and a department. -/
def raviRegistration : RegisterBody :=
  { name := some "Ravi", email := some "asha@campus.com", password := some "ravi-pw",
    role := .str "technician", department := some "Maintenance" }

/-- A registration asking for the admin role. -/
def adminRegistration : RegisterBody :=
  { name := some "Eve", email := some "eve@campus.com", password := some "eve-pw",
    role := .str "admin", department := some "Facility" }

/-- A registration whose role is the object `{"_id": "admin"}`. -/
def adminObjectRegistration : RegisterBody :=
  { name := some "Eve", email := some "eve@campus.com", password := some "eve-pw",
    role := .idObject "admin", department := some "Facility" }

/-- A stand-in for the text of `err.message`. -/
def seedErrMessage : SaveError → String
  | .validation => "User validation failed"
  | .duplicateKey => "E11000 duplicate key error"

/-- A submission that also sends a status, an assignee and repair notes. -/
def presetBody : ComplaintBody :=
  { category := some "Plumbing", title := some "Leak", description := some "Tap leaks",
    status := some "Resolved", assignedTo := some 2, repairNotes := some "Done" }

/-! # Theorems -/

/-! ## Basic lemmas -/

theorem authorize_denied {σ α : Type} (roles : List String) (user : Token)
    (next : σ → Res α × σ) (s : σ) (h : ¬ user.role ∈ roles) :
    authorize roles user next s = (.fail 403 "Access denied", s) := by
  simp [authorize, h]

theorem authorize_granted {σ α : Type} (roles : List String) (user : Token)
    (next : σ → Res α × σ) (s : σ) (h : user.role ∈ roles) :
    authorize roles user next s = next s := by
  simp [authorize, h]

/-! ## Login -/

/-- Login answers for the first document matching the query: when its hash
verifies, the token carries that document's id and role. -/
theorem login_first_match (compare : String → String → Bool) (body : LoginBody)
    (users : List User) (u : User) (hfind : findOne (loginQuery body) users = some u)
    (hpw : compare body.password u.password = true) :
    login compare body users =
      .json { token := { id := u.id, role := u.role }
              user := { id := u.id, name := some u.name, email := u.email,
                        role := .str body.role } } := by
  simp [login, hfind, hpw]

/-- A password that does not verify against the document the lookup finds is
answered with Invalid credentials. -/
theorem login_wrong_password (compare : String → String → Bool) (body : LoginBody)
    (users : List User) (u : User) (hfind : findOne (loginQuery body) users = some u)
    (hpw : compare body.password u.password = false) :
    login compare body users = .fail 400 "Invalid credentials" := by
  simp [login, hfind, hpw]

/-- C1, at the failing inputs: with the seeded users, the second technician
logging in with role technician and her password gets a token that carries the
first technician's id; and a technician with a password of their own, stored
after the seeded ones, gets Invalid credentials for that password. -/
theorem login_technician_not_first :
    seedSarah ∈ seedUsers ∧ seedCompare "tech123" seedSarah.password = true ∧
    login seedCompare { email := none, password := "tech123", role := "technician" } seedUsers =
      .json { token := { id := 2, role := some "technician" }
              user := { id := 2, name := some "Mike Tech", email := some "mike@tech.com",
                        role := .str "technician" } } ∧
    seedSarah.id = 3 ∧
    techRavi ∈ seedUsers ++ [techRavi] ∧ seedCompare "ravi-pw" techRavi.password = true ∧
    login seedCompare { email := none, password := "ravi-pw", role := "technician" }
      (seedUsers ++ [techRavi]) = .fail 400 "Invalid credentials" := by
  decide

/-! ## Update status: who may call it -/

/-- C2 fails as stated: a technician who is not the assignee of the complaint
updates its status, and the stored complaint changes. -/
theorem updateStatus_other_technician :
    leak.assignedTo = some 2 ∧
    updateStatus 3000 { id := 3, role := "technician" } 10
        { status := "Resolved", repairNotes := some "Fixed valve" } [leak] =
      (.json (some { leak with status := "Resolved", repairNotes := some "Fixed valve",
                               updatedAt := some 3000 }),
        [{ leak with status := "Resolved", repairNotes := some "Fixed valve",
                     updatedAt := some 3000 }]) ∧
    (updateStatus 3000 { id := 3, role := "technician" } 10
        { status := "Resolved", repairNotes := some "Fixed valve" } [leak]).2 ≠ [leak] := by
  decide

/-- C2, amended: the status route is rejected exactly when the caller's role is
neither admin nor technician.  A rejected call gets 403 and leaves the
collection as it was; every admin and every technician, assigned or not, has
the update applied. -/
theorem updateStatus_role_gate (now : Int) (user : Token) (id : Nat) (body : StatusBody)
    (cs : List Complaint) :
    (user.role ≠ "admin" ∧ user.role ≠ "technician" →
      updateStatus now user id body cs = (.fail 403 "Access denied", cs)) ∧
    (user.role = "admin" ∨ user.role = "technician" →
      updateStatus now user id body cs =
        (.json (findByIdAndUpdate id (statusUpdate now body) cs).1,
          (findByIdAndUpdate id (statusUpdate now body) cs).2)) := by
  constructor
  · rintro ⟨ha, ht⟩
    exact authorize_denied _ _ _ _ (by simp [ha, ht])
  · intro h
    exact authorize_granted _ _ _ _ (by simpa using h)

theorem updateStatus_role_gate_witness :
    updateStatus 3000 { id := 5, role := "student" } 10
        { status := "Resolved", repairNotes := none } [leak] =
      (.fail 403 "Access denied", [leak]) ∧
    updateStatus 3000 { id := 1, role := "admin" } 10
        { status := "Resolved", repairNotes := none } [leak] =
      (.json (findByIdAndUpdate 10 (statusUpdate 3000 { status := "Resolved", repairNotes := none })
          [leak]).1,
        (findByIdAndUpdate 10 (statusUpdate 3000 { status := "Resolved", repairNotes := none })
          [leak]).2) :=
  ⟨(updateStatus_role_gate 3000 { id := 5, role := "student" } 10
      { status := "Resolved", repairNotes := none } [leak]).1 (by decide),
   (updateStatus_role_gate 3000 { id := 1, role := "admin" } 10
      { status := "Resolved", repairNotes := none } [leak]).2 (by decide)⟩

/-! ## Lemmas on `findByIdAndUpdate` -/

theorem findByIdAndUpdate_length (id : Nat) (f : Complaint → Complaint) (cs : List Complaint) :
    (findByIdAndUpdate id f cs).2.length = cs.length := by
  induction cs with
  | nil => rfl
  | cons c cs ih =>
    by_cases h : c.id = id
    · simp [findByIdAndUpdate, h]
    · simp [findByIdAndUpdate, h, ih]

/-- A property of all documents survives the update when the update keeps it. -/
theorem findByIdAndUpdate_forall (P : Complaint → Prop) (id : Nat) (f : Complaint → Complaint)
    (cs : List Complaint) (hcs : ∀ c ∈ cs, P c) (hf : ∀ c ∈ cs, P (f c)) :
    ∀ c ∈ (findByIdAndUpdate id f cs).2, P c := by
  induction cs with
  | nil => simp [findByIdAndUpdate]
  | cons c cs ih =>
    have ih' := ih (fun d hd => hcs d (List.mem_cons_of_mem _ hd))
      (fun d hd => hf d (List.mem_cons_of_mem _ hd))
    by_cases h : c.id = id
    · intro d hd
      simp only [findByIdAndUpdate, h, if_true, List.mem_cons] at hd
      rcases hd with rfl | hd
      · exact hf c (List.mem_cons_self _ _)
      · exact hcs d (List.mem_cons_of_mem _ hd)
    · intro d hd
      simp only [findByIdAndUpdate, h, if_false, List.mem_cons] at hd
      rcases hd with rfl | hd
      · exact hcs d (List.mem_cons_self _ _)
      · exact ih' d hd

/-- After an update that keeps `_id`, looking the id up gives the update of
what the lookup gave before. -/
theorem findById_findByIdAndUpdate (id : Nat) (f : Complaint → Complaint)
    (hf : ∀ c, (f c).id = c.id) (cs : List Complaint) :
    findById id (findByIdAndUpdate id f cs).2 = (findById id cs).map f := by
  induction cs with
  | nil => rfl
  | cons c cs ih =>
    by_cases h : c.id = id
    · simp [findByIdAndUpdate, findById, findOne, h, hf]
    · have ih' : List.find? (fun c => c.id == id) (findByIdAndUpdate id f cs).2 =
          Option.map f (List.find? (fun c => c.id == id) cs) := ih
      simp [findByIdAndUpdate, findById, findOne, h, ih']

/-! ## Assignees -/

theorem handle_assignee (Q : Nat → Prop) (cs : List Complaint) (r : Request)
    (hr : ∀ t, r.assignee = some t → Q t)
    (hcs : ∀ c ∈ cs, ∀ a, c.assignedTo = some a → Q a) :
    ∀ c ∈ handle cs r, ∀ a, c.assignedTo = some a → Q a := by
  cases r with
  | create oid now user body file =>
    intro c hc a ha
    simp only [handle, createComplaint, List.mem_append, List.mem_singleton] at hc
    rcases hc with hc | rfl
    · exact hcs c hc a ha
    · simp at ha
  | assign users now user id technicianId =>
    by_cases hrole : user.role ∈ ["admin"]
    · simp only [handle, assignTechnician, authorize_granted _ _ _ _ hrole]
      apply findByIdAndUpdate_forall _ _ _ _ hcs
      intro c _ a ha
      exact hr a (by simpa [Request.assignee, assignUpdate] using ha)
    · simpa only [handle, assignTechnician, authorize_denied _ _ _ _ hrole] using hcs
  | status now user id body =>
    by_cases hrole : user.role ∈ ["admin", "technician"]
    · simp only [handle, updateStatus, authorize_granted _ _ _ _ hrole]
      apply findByIdAndUpdate_forall _ _ _ _ hcs
      intro c hc a ha
      exact hcs c hc a (by simpa [statusUpdate] using ha)
    · simpa only [handle, updateStatus, authorize_denied _ _ _ _ hrole] using hcs

theorem run_assignee (Q : Nat → Prop) (reqs : List Request) (cs : List Complaint)
    (hr : ∀ r ∈ reqs, ∀ t, r.assignee = some t → Q t)
    (hcs : ∀ c ∈ cs, ∀ a, c.assignedTo = some a → Q a) :
    ∀ c ∈ run cs reqs, ∀ a, c.assignedTo = some a → Q a := by
  induction reqs generalizing cs with
  | nil => simpa [run] using hcs
  | cons r reqs ih =>
    have h1 := handle_assignee Q cs r (hr r (List.mem_cons_self _ _)) hcs
    have h2 := ih (handle cs r) (fun r' hr' => hr r' (List.mem_cons_of_mem _ hr')) h1
    simpa [run] using h2

/-- C3 fails as stated: from the empty collection, the admin assigns the
complaint to the id of a student, and then to an id no user has; each time the
id is stored as the assignee. -/
theorem assign_stores_non_technician :
    (run [] [fileLeak, .assign (seedUsers ++ [studentAsha]) 2000 { id := 1, role := "admin" } 10 (.oid 5)]).map
        (fun c => c.assignedTo) = [some 5] ∧
    findOne (fun u => u.id == 5) (seedUsers ++ [studentAsha]) = some studentAsha ∧
    studentAsha.role = some "student" ∧
    isTechnician (seedUsers ++ [studentAsha]) 5 = false ∧
    (run [] [fileLeak, .assign (seedUsers ++ [studentAsha]) 2000 { id := 1, role := "admin" } 10 (.oid 99)]).map
        (fun c => c.assignedTo) = [some 99] ∧
    findOne (fun u => u.id == 99) (seedUsers ++ [studentAsha]) = none := by
  decide

/-- C3, amended: the assign route stores the id its request carries, without
looking it up.  So in every state the create, assign and update-status routes
reach from the empty collection, if every assign request carried the id of a
technician (or no id), every assignee that is set is the id of a technician. -/
theorem assignee_technician_of_requests (users : List User) (reqs : List Request)
    (hreqs : ∀ r ∈ reqs, ∀ t, r.assignee = some t → isTechnician users t = true) :
    ∀ c ∈ run [] reqs, ∀ a, c.assignedTo = some a → isTechnician users a = true :=
  run_assignee (fun t => isTechnician users t = true) reqs [] hreqs (by simp)

theorem assignee_technician_of_requests_witness :
    { leak with status := "Resolved", repairNotes := some "Fixed valve",
                updatedAt := some 3000 } ∈
      run [] [fileLeak, .assign seedUsers 2000 adminToken 10 (.oid 2), resolveLeak] ∧
    isTechnician seedUsers 2 = true :=
  ⟨by decide,
   assignee_technician_of_requests seedUsers
    [fileLeak, .assign seedUsers 2000 adminToken 10 (.oid 2), resolveLeak] (by decide)
    { leak with status := "Resolved", repairNotes := some "Fixed valve",
                updatedAt := some 3000 } (by decide) 2 (by decide)⟩

/-! ## Resolved complaints carry a last-update time -/

theorem handle_updatedAt (cs : List Complaint) (r : Request)
    (hcs : ∀ c ∈ cs, c.status ≠ "Pending" → c.updatedAt.isSome = true) :
    ∀ c ∈ handle cs r, c.status ≠ "Pending" → c.updatedAt.isSome = true := by
  cases r with
  | create oid now user body file =>
    intro c hc
    simp only [handle, createComplaint, List.mem_append, List.mem_singleton] at hc
    rcases hc with hc | rfl
    · exact hcs c hc
    · simp
  | assign users now user id technicianId =>
    by_cases hrole : user.role ∈ ["admin"]
    · simp only [handle, assignTechnician, authorize_granted _ _ _ _ hrole]
      exact findByIdAndUpdate_forall _ _ _ _ hcs (fun _ _ _ => rfl)
    · simpa only [handle, assignTechnician, authorize_denied _ _ _ _ hrole] using hcs
  | status now user id body =>
    by_cases hrole : user.role ∈ ["admin", "technician"]
    · simp only [handle, updateStatus, authorize_granted _ _ _ _ hrole]
      exact findByIdAndUpdate_forall _ _ _ _ hcs (fun _ _ _ => rfl)
    · simpa only [handle, updateStatus, authorize_denied _ _ _ _ hrole] using hcs

theorem run_updatedAt (reqs : List Request) (cs : List Complaint)
    (hcs : ∀ c ∈ cs, c.status ≠ "Pending" → c.updatedAt.isSome = true) :
    ∀ c ∈ run cs reqs, c.status ≠ "Pending" → c.updatedAt.isSome = true := by
  induction reqs generalizing cs with
  | nil => simpa [run] using hcs
  | cons r reqs ih =>
    have h := ih (handle cs r) (handle_updatedAt cs r hcs)
    simpa [run] using h

/-! ## Reports -/

/-- When every status is one of the schema's three values, the three counts add
up to the total. -/
theorem report_counts_sum_of_enum (cs : List Complaint)
    (h : ∀ c ∈ cs, c.status ∈ complaintStatuses) :
    (buildReport cs).pending + (buildReport cs).inProgress + (buildReport cs).resolved =
      (buildReport cs).total := by
  induction cs with
  | nil => rfl
  | cons c cs ih =>
    have hc : c.status = "Pending" ∨ c.status = "In Progress" ∨ c.status = "Resolved" := by
      simpa [complaintStatuses] using h c (List.mem_cons_self _ _)
    have ih' := ih (fun d hd => h d (List.mem_cons_of_mem _ hd))
    simp only [buildReport, countStatus, List.length_cons, List.countP_cons] at ih' ⊢
    rcases hc with hc | hc | hc <;> simp [hc] <;> omega

/-- C4, at the failing input: a complaint is filed and a technician sets its
status to a string outside the enum; the update is stored as sent, and the
report of the collection reached has total 1 while the three counts are 0. -/
theorem report_counts_miss_unlisted_status :
    Reachable (run [] [fileLeak, closeLeak]) ∧
    (run [] [fileLeak, closeLeak]).map (fun c => c.status) = ["Closed"] ∧
    (buildReport (run [] [fileLeak, closeLeak])).total = 1 ∧
    (buildReport (run [] [fileLeak, closeLeak])).pending = 0 ∧
    (buildReport (run [] [fileLeak, closeLeak])).inProgress = 0 ∧
    (buildReport (run [] [fileLeak, closeLeak])).resolved = 0 ∧
    (buildReport (run [] [fileLeak, closeLeak])).pending
        + (buildReport (run [] [fileLeak, closeLeak])).inProgress
        + (buildReport (run [] [fileLeak, closeLeak])).resolved
      ≠ (buildReport (run [] [fileLeak, closeLeak])).total :=
  ⟨⟨_, rfl⟩, by decide, by decide, by decide, by decide, by decide, by decide⟩

theorem filterMap_resolutionTime (rs : List Complaint)
    (h : ∀ c ∈ rs, c.updatedAt.isSome = true) :
    (rs.map resolutionTime).filterMap id =
      rs.map (fun c => c.updatedAt.getD c.createdAt - c.createdAt) := by
  induction rs with
  | nil => rfl
  | cons c rs ih =>
    have hc := h c (List.mem_cons_self _ _)
    obtain ⟨u, hu⟩ := Option.isSome_iff_exists.mp hc
    have ih' := ih (fun d hd => h d (List.mem_cons_of_mem _ hd))
    simp only [List.map_cons, resolutionTime, hu, Option.map_some', List.filterMap_cons, id,
      Option.getD_some]
    rw [← ih']

theorem avgOrZero_singleton (t : ℚ) : avgOrZero [some t] = t := by
  by_cases h : t = 0 <;> simp [avgOrZero, h]

/-- The report's average is a function of the Resolved complaints alone. -/
theorem avgTimeAggregate_resolved (cs : List Complaint) :
    avgTimeAggregate cs =
      if resolvedComplaints cs = [] then []
      else [mongoAvg ((resolvedComplaints cs).map resolutionTime)] := rfl

/-! ### Rounding to a double -/

theorem roundHalfEven_intCast (z : ℤ) : roundHalfEven (z : ℚ) = z := by
  simp [roundHalfEven]

/-- A value less than one half above an integer rounds to that integer. -/
theorem roundHalfEven_of_lt_half (x : ℚ) (z : ℤ) (hz : (z : ℚ) ≤ x) (hx : x - z < 1 / 2) :
    roundHalfEven x = z := by
  have hfloor : ⌊x⌋ = z := by
    rw [Int.floor_eq_iff]
    constructor
    · exact hz
    · linarith
  simp only [roundHalfEven, hfloor]
  rw [if_pos hx]

/-- An integer below `2 ^ 53` in magnitude is a double. -/
theorem toDouble_intCast (n : ℤ) (h : |n| < 2 ^ 53) : toDouble (n : ℚ) = n := by
  by_cases hn : n = 0
  · simp [hn, toDouble]
  have hq : (n : ℚ) ≠ 0 := by exact_mod_cast hn
  have hpos : (0 : ℚ) < |(n : ℚ)| := abs_pos.mpr hq
  have hlt : Int.log 2 |(n : ℚ)| < 53 := by
    rw [← Int.lt_zpow_iff_log_lt (by norm_num) hpos]
    have h1 : |(n : ℚ)| < 2 ^ (53 : ℕ) := by exact_mod_cast h
    have h2 : (((2 : ℕ) : ℚ)) ^ ((53 : ℕ) : ℤ) = 2 ^ (53 : ℕ) := by
      rw [zpow_natCast]; norm_num
    exact h2 ▸ h1
  have hge : 0 ≤ Int.log 2 |(n : ℚ)| := by
    rw [← Int.zpow_le_iff_le_log (by norm_num) hpos]
    have h0 : (1 : ℤ) ≤ |n| := Int.one_le_abs hn
    have h1 : (1 : ℚ) ≤ |(n : ℚ)| := by exact_mod_cast h0
    simpa using h1
  obtain ⟨j, hj⟩ : ∃ j : ℕ, Int.log 2 |(n : ℚ)| - 52 = -(j : ℤ) :=
    ⟨(52 - Int.log 2 |(n : ℚ)|).toNat, by omega⟩
  simp only [toDouble, hq, if_false, hj, zpow_neg, zpow_natCast]
  have hdiv : (n : ℚ) / (2 ^ j)⁻¹ = ((n * 2 ^ j : ℤ) : ℚ) := by
    push_cast
    field_simp
  rw [hdiv, roundHalfEven_intCast]
  push_cast
  field_simp

/-- The double nearest to 4/3 is `6004799503160661 / 2 ^ 52`, which prints as
1.3333333333333333. -/
theorem toDouble_four_thirds :
    toDouble (4 / 3) = 6004799503160661 / 4503599627370496 := by
  have hlog : Int.log 2 |(4 / 3 : ℚ)| = 0 := by
    have hpos : (0 : ℚ) < |(4 / 3 : ℚ)| := by norm_num
    apply le_antisymm
    · have h : Int.log 2 |(4 / 3 : ℚ)| < 1 := by
        rw [← Int.lt_zpow_iff_log_lt (by norm_num) hpos]
        norm_num [abs_of_pos]
      omega
    · rw [← Int.zpow_le_iff_le_log (by norm_num) hpos]
      norm_num [abs_of_pos]
  have hround : roundHalfEven ((4 / 3 : ℚ) / 2 ^ (0 - 52 : ℤ)) = 6004799503160661 := by
    apply roundHalfEven_of_lt_half <;> norm_num [zpow_neg]
  have hne : (4 / 3 : ℚ) ≠ 0 := by norm_num
  simp only [toDouble, hne, if_false, hlog, hround]
  norm_num [zpow_neg]

/-! ### The average -/

/-- On a collection where every Resolved complaint has an `updatedAt`, the
report's average is 0 when no complaint is Resolved, and otherwise the double
quotient of the total resolution time, as a double, by the number of Resolved
complaints. -/
theorem avg_of_stamped (cs : List Complaint)
    (h : ∀ c ∈ cs, c.status = "Resolved" → c.updatedAt.isSome = true) :
    (buildReport cs).avgResolutionTime =
      if resolvedComplaints cs = [] then 0
      else toDouble (toDouble (totalResolutionTime cs : ℚ) /
        ((resolvedComplaints cs).length : ℚ)) := by
  have hrs : ∀ c ∈ resolvedComplaints cs, c.updatedAt.isSome = true := by
    intro c hc
    have hc' := List.mem_filter.mp hc
    exact h c hc'.1 (by simpa using hc'.2)
  simp only [buildReport, avgTimeAggregate_resolved, totalResolutionTime]
  by_cases hnil : resolvedComplaints cs = []
  · simp [hnil, avgOrZero]
  · have hne : (resolvedComplaints cs).map
        (fun c => c.updatedAt.getD c.createdAt - c.createdAt) ≠ [] := by
      simpa using hnil
    simp only [hnil, if_false, mongoAvg, filterMap_resolutionTime _ hrs, hne,
      avgOrZero_singleton, List.length_map]

/-- With durations that sum to less than `2 ^ 53` in magnitude, the average of
a collection where every Resolved complaint has an `updatedAt` is the double
nearest to the mean. -/
theorem avg_eq_toDouble_mean (cs : List Complaint)
    (h : ∀ c ∈ cs, c.status = "Resolved" → c.updatedAt.isSome = true)
    (hsum : |totalResolutionTime cs| < 2 ^ 53) :
    (buildReport cs).avgResolutionTime = toDouble (meanResolutionTime cs) := by
  rw [avg_of_stamped cs h, toDouble_intCast _ hsum]
  by_cases hnil : resolvedComplaints cs = []
  · simp [hnil, meanResolutionTime, toDouble]
  · have hlen : (resolvedComplaints cs).length ≠ 0 := by
      simpa [List.length_eq_zero] using hnil
    simp [hnil, meanResolutionTime, hlen]

/-- When the mean is an integer, it is bounded by the total. -/
theorem abs_mean_le_total (cs : List Complaint) (m : ℤ) (hm : meanResolutionTime cs = m) :
    |m| ≤ |totalResolutionTime cs| := by
  by_cases hlen : (resolvedComplaints cs).length = 0
  · have h0 : m = 0 := by
      have : (m : ℚ) = 0 := by rw [← hm]; simp [meanResolutionTime, hlen]
      exact_mod_cast this
    simp [h0]
  · have hpos : (1 : ℚ) ≤ ((resolvedComplaints cs).length : ℚ) := by
      exact_mod_cast Nat.one_le_iff_ne_zero.mpr hlen
    have hq : (|m| : ℚ) ≤ |(totalResolutionTime cs : ℚ)| := by
      have hmean : (m : ℚ) = (totalResolutionTime cs : ℚ) / ((resolvedComplaints cs).length : ℚ) := by
        rw [← hm]; simp [meanResolutionTime, hlen]
      rw [hmean, abs_div, abs_of_pos (by linarith : (0 : ℚ) < ((resolvedComplaints cs).length : ℚ))]
      exact div_le_self (abs_nonneg _) hpos
    exact_mod_cast hq

/-- In every collection the three routes reach from the empty one, a Resolved
complaint has an `updatedAt`. -/
theorem reachable_stamped (cs : List Complaint) (h : Reachable cs) :
    ∀ c ∈ cs, c.status = "Resolved" → c.updatedAt.isSome = true := by
  obtain ⟨reqs, rfl⟩ := h
  intro c hc hres
  exact run_updatedAt reqs [] (by simp) c hc (by rw [hres]; decide)

/-- C5 fails as stated: three complaints filed together and resolved after
1 ms, 1 ms and 2 ms have the mean resolution time 4/3, and the report's
average is the double `6004799503160661 / 2 ^ 52` (1.3333333333333333), which
is not 4/3. -/
theorem avgResolutionTime_not_mean :
    Reachable (run [] quickFixes) ∧
    (run [] quickFixes).map (fun c => (c.status, resolutionTime c)) =
      [("Resolved", some 1), ("Resolved", some 1), ("Resolved", some 2)] ∧
    meanResolutionTime (run [] quickFixes) = 4 / 3 ∧
    (buildReport (run [] quickFixes)).avgResolutionTime =
      6004799503160661 / 4503599627370496 ∧
    (buildReport (run [] quickFixes)).avgResolutionTime ≠
      meanResolutionTime (run [] quickFixes) := by
  have hreach : Reachable (run [] quickFixes) := ⟨_, rfl⟩
  have hres : resolvedComplaints (run [] quickFixes) = run [] quickFixes := by decide
  have hlen : (run [] quickFixes).length = 3 := by decide
  have htotal : totalResolutionTime (run [] quickFixes) = 4 := by decide
  have hmean : meanResolutionTime (run [] quickFixes) = 4 / 3 := by
    simp only [meanResolutionTime, hres, hlen, htotal]
    norm_num
  have havg : (buildReport (run [] quickFixes)).avgResolutionTime =
      6004799503160661 / 4503599627370496 := by
    rw [avg_eq_toDouble_mean _ (reachable_stamped _ hreach) (by rw [htotal]; norm_num), hmean]
    exact toDouble_four_thirds
  refine ⟨hreach, by decide, hmean, havg, ?_⟩
  rw [havg, hmean]
  norm_num

/-- C5, amended: (1) on a collection where every Resolved complaint has an
`updatedAt` and the resolution times sum to less than `2 ^ 53` ms in magnitude,
the report's `avgResolutionTime` is the double nearest to the arithmetic mean,
in milliseconds, of `updatedAt - createdAt` over the Resolved complaints, and
is the mean itself whenever the mean is an integer; (2) it is 0 when no
complaint is Resolved; (3) with exactly one Resolved complaint, created at `t0`
and last updated at `t1` less than `2 ^ 53` ms apart, it is `t1 - t0`; (4) two
collections with the same Resolved complaints have the same average, so
complaints in any other status do not contribute; (5) every collection the
create, assign and update-status routes reach from the empty one is as in (1):
every Resolved complaint in it has an `updatedAt`. -/
theorem avgResolutionTime_rounded_mean (cs : List Complaint) :
    ((∀ c ∈ cs, c.status = "Resolved" → c.updatedAt.isSome = true) →
      |totalResolutionTime cs| < 2 ^ 53 →
      (buildReport cs).avgResolutionTime = toDouble (meanResolutionTime cs) ∧
      ∀ m : ℤ, meanResolutionTime cs = m → (buildReport cs).avgResolutionTime = m) ∧
    ((∀ c ∈ cs, c.status ≠ "Resolved") → (buildReport cs).avgResolutionTime = 0) ∧
    (∀ (c : Complaint) (t0 t1 : Int), resolvedComplaints cs = [c] → c.createdAt = t0 →
      c.updatedAt = some t1 → |t1 - t0| < 2 ^ 53 →
      (buildReport cs).avgResolutionTime = ((t1 - t0 : Int) : ℚ)) ∧
    (∀ cs' : List Complaint, resolvedComplaints cs' = resolvedComplaints cs →
      (buildReport cs').avgResolutionTime = (buildReport cs).avgResolutionTime) ∧
    (Reachable cs → |totalResolutionTime cs| < 2 ^ 53 →
      (buildReport cs).avgResolutionTime = toDouble (meanResolutionTime cs)) := by
  refine ⟨fun h hsum => ⟨avg_eq_toDouble_mean cs h hsum, fun m hm => ?_⟩, ?_, ?_, ?_,
    fun h hsum => avg_eq_toDouble_mean cs (reachable_stamped cs h) hsum⟩
  · rw [avg_eq_toDouble_mean cs h hsum, hm]
    exact toDouble_intCast m (lt_of_le_of_lt (abs_mean_le_total cs m hm) hsum)
  · intro h
    have hnil : resolvedComplaints cs = [] := by
      simp only [resolvedComplaints, List.filter_eq_nil_iff]
      intro c hc
      simpa using h c hc
    simp [buildReport, avgTimeAggregate_resolved, hnil, avgOrZero]
  · intro c t0 t1 hrs h0 h1 hlt
    have hd : toDouble ((t1 : ℚ) - (t0 : ℚ)) = (t1 : ℚ) - (t0 : ℚ) := by
      have := toDouble_intCast (t1 - t0) hlt
      push_cast at this
      exact this
    simp [buildReport, avgTimeAggregate_resolved, hrs, mongoAvg, resolutionTime, h0, h1,
      avgOrZero_singleton, hd]
  · intro cs' h
    simp only [buildReport, avgTimeAggregate_resolved, h]

theorem avgResolutionTime_rounded_mean_witness :
    ((buildReport [leak, fixedFan]).avgResolutionTime =
        toDouble (meanResolutionTime [leak, fixedFan]) ∧
      ∀ m : ℤ, meanResolutionTime [leak, fixedFan] = m →
        (buildReport [leak, fixedFan]).avgResolutionTime = m) ∧
    (buildReport [leak]).avgResolutionTime = 0 ∧
    (buildReport [leak, fixedFan]).avgResolutionTime = ((6000 - 1000 : Int) : ℚ) ∧
    (buildReport [fixedFan]).avgResolutionTime =
      (buildReport [leak, fixedFan]).avgResolutionTime ∧
    (buildReport (run [] [fileLeak, resolveLeak])).avgResolutionTime =
      toDouble (meanResolutionTime (run [] [fileLeak, resolveLeak])) :=
  ⟨(avgResolutionTime_rounded_mean [leak, fixedFan]).1 (by decide) (by decide),
   (avgResolutionTime_rounded_mean [leak]).2.1 (by decide),
   (avgResolutionTime_rounded_mean [leak, fixedFan]).2.2.1 fixedFan 1000 6000 (by decide)
     (by decide) (by decide) (by decide),
   (avgResolutionTime_rounded_mean [leak, fixedFan]).2.2.2.1 [fixedFan] (by decide),
   (avgResolutionTime_rounded_mean (run [] [fileLeak, resolveLeak])).2.2.2.2 ⟨_, rfl⟩
     (by decide)⟩

/-! ## Assign and update status: what they store -/

theorem findByIdAndUpdate_fst (id : Nat) (f : Complaint → Complaint) (cs : List Complaint) :
    (findByIdAndUpdate id f cs).1 = (findById id cs).map f := by
  induction cs with
  | nil => rfl
  | cons c cs ih =>
    have ih' : (findByIdAndUpdate id f cs).1 =
        Option.map f (List.find? (fun c => c.id == id) cs) := ih
    by_cases h : c.id = id
    · simp [findByIdAndUpdate, findById, findOne, h]
    · simp [findByIdAndUpdate, findById, findOne, h, ih']

theorem assignTechnician_admin (users : List User) (now : Int) (user : Token) (id : Nat)
    (technicianId : IdField) (cs : List Complaint) (hadmin : user.role = "admin") :
    assignTechnician users now user id technicianId cs =
      (.json ((findByIdAndUpdate id (assignUpdate now technicianId) cs).1.map
          (populateAssignedTo users)),
        (findByIdAndUpdate id (assignUpdate now technicianId) cs).2) :=
  authorize_granted _ _ _ _ (by simp [hadmin])

/-- C6: for an existing complaint `c`, in whatever status, an admin's assign
request stores `c` with the assignee set to the request's technician id, the
status `In Progress` and `updatedAt` stamped, every other field as it was, and
answers with that document, populated; the stored assignee is `t` for a
technician id `t` and is cleared for an absent, null or empty one; a second
assign with the same technician id stores the same again, apart from the new
stamp. -/
theorem assign_sets_in_progress (users : List User) (now now' : Int) (user : Token) (id : Nat)
    (technicianId : IdField) (cs : List Complaint) (c : Complaint)
    (hadmin : user.role = "admin") (hc : findById id cs = some c) :
    (assignTechnician users now user id technicianId cs).1 =
      .json (some (populateAssignedTo users
        { c with assignedTo := technicianId.orNull, status := "In Progress",
                 updatedAt := some now })) ∧
    findById id (assignTechnician users now user id technicianId cs).2 =
      some { c with assignedTo := technicianId.orNull, status := "In Progress",
                    updatedAt := some now } ∧
    (∀ t : Nat, (IdField.oid t).orNull = some t) ∧
    IdField.absent.orNull = none ∧ IdField.null.orNull = none ∧ IdField.empty.orNull = none ∧
    findById id (assignTechnician users now' user id technicianId
        (assignTechnician users now user id technicianId cs).2).2 =
      some { c with assignedTo := technicianId.orNull, status := "In Progress",
                    updatedAt := some now' } := by
  have hid : ∀ n d, (assignUpdate n technicianId d).id = d.id := fun _ _ => rfl
  refine ⟨?_, ?_, fun _ => rfl, rfl, rfl, rfl, ?_⟩
  · rw [assignTechnician_admin _ _ _ _ _ _ hadmin, findByIdAndUpdate_fst, hc]
    rfl
  · rw [assignTechnician_admin _ _ _ _ _ _ hadmin]
    simp only [findById_findByIdAndUpdate id _ (hid now), hc]
    rfl
  · rw [assignTechnician_admin _ _ _ _ _ _ hadmin, assignTechnician_admin _ _ _ _ _ _ hadmin]
    simp only [findById_findByIdAndUpdate id _ (hid now), findById_findByIdAndUpdate id _ (hid now'),
      hc]
    rfl

theorem assign_sets_in_progress_witness :
    (assignTechnician seedUsers 4000 adminToken 11 (.oid 3) [leak, fixedFan]).1 =
      .json (some { id := 11, userId := 5, category := some "Electrical", title := some "Fan",
                    description := none, imagePath := none, status := "In Progress",
                    assignedTo := some { id := 3, name := "Sarah Fix" },
                    repairNotes := some "Replaced", createdAt := 1000,
                    updatedAt := some 4000 }) ∧
    findById 11 (assignTechnician seedUsers 4000 adminToken 11 (.oid 3) [leak, fixedFan]).2 =
      some { id := 11, userId := 5, category := some "Electrical", title := some "Fan",
             description := none, imagePath := none, status := "In Progress",
             assignedTo := some 3, repairNotes := some "Replaced", createdAt := 1000,
             updatedAt := some 4000 } ∧
    findById 11 (assignTechnician seedUsers 5000 adminToken 11 (.oid 3)
        (assignTechnician seedUsers 4000 adminToken 11 (.oid 3) [leak, fixedFan]).2).2 =
      some { id := 11, userId := 5, category := some "Electrical", title := some "Fan",
             description := none, imagePath := none, status := "In Progress",
             assignedTo := some 3, repairNotes := some "Replaced", createdAt := 1000,
             updatedAt := some 5000 } :=
  ⟨(assign_sets_in_progress seedUsers 4000 5000 adminToken 11 (.oid 3) [leak, fixedFan] fixedFan
      (by decide) (by decide)).1.trans (by decide),
   (assign_sets_in_progress seedUsers 4000 5000 adminToken 11 (.oid 3) [leak, fixedFan] fixedFan
      (by decide) (by decide)).2.1.trans (by decide),
   (assign_sets_in_progress seedUsers 4000 5000 adminToken 11 (.oid 3) [leak, fixedFan] fixedFan
      (by decide) (by decide)).2.2.2.2.2.2.trans (by decide)⟩

/-- The answers of the assign route on the seeded users: the assignee is
populated with the technician's name, and is `null` in the answer for an id no
user has, while the id is stored. -/
theorem assignTechnician_populated :
    assignTechnician seedUsers 4000 adminToken 10 (.oid 3) [leak] =
      (.json (some { id := 10, userId := 5, category := some "Plumbing", title := some "Leak",
                     description := some "Tap leaks", imagePath := none,
                     status := "In Progress",
                     assignedTo := some { id := 3, name := "Sarah Fix" },
                     repairNotes := none, createdAt := 1000, updatedAt := some 4000 }),
        [{ leak with assignedTo := some 3, updatedAt := some 4000 }]) ∧
    assignTechnician seedUsers 4000 adminToken 10 (.oid 99) [leak] =
      (.json (some { id := 10, userId := 5, category := some "Plumbing", title := some "Leak",
                     description := some "Tap leaks", imagePath := none,
                     status := "In Progress", assignedTo := none,
                     repairNotes := none, createdAt := 1000, updatedAt := some 4000 }),
        [{ leak with assignedTo := some 99, updatedAt := some 4000 }]) := by
  decide

theorem updateStatus_permitted (now : Int) (user : Token) (id : Nat) (body : StatusBody)
    (cs : List Complaint) (hrole : user.role = "admin" ∨ user.role = "technician") :
    updateStatus now user id body cs =
      (.json (findByIdAndUpdate id (statusUpdate now body) cs).1,
        (findByIdAndUpdate id (statusUpdate now body) cs).2) :=
  authorize_granted _ _ _ _ (by simpa using hrole)

/-- C10: for an existing complaint `c`, in whatever status, a status request of
an admin or a technician with status Resolved and non-empty notes `n` stores
`c` with status Resolved, `repairNotes = n` and `updatedAt` stamped; and for
every requested status the stored status is the requested one, the notes
replaced only when the request carries non-empty ones. -/
theorem updateStatus_sets_status (now : Int) (user : Token) (id : Nat) (cs : List Complaint)
    (c : Complaint) (hrole : user.role = "admin" ∨ user.role = "technician")
    (hc : findById id cs = some c) :
    (∀ n : String, n ≠ "" →
      findById id (updateStatus now user id { status := "Resolved", repairNotes := some n } cs).2 =
        some { c with status := "Resolved", repairNotes := some n, updatedAt := some now }) ∧
    (∀ body : StatusBody,
      findById id (updateStatus now user id body cs).2 =
        some { c with status := body.status, updatedAt := some now,
                      repairNotes := if truthy body.repairNotes then body.repairNotes
                                     else c.repairNotes }) := by
  have hid : ∀ b d, (statusUpdate now b d).id = d.id := fun _ _ => rfl
  have hgen : ∀ body : StatusBody,
      findById id (updateStatus now user id body cs).2 = some (statusUpdate now body c) := by
    intro body
    rw [updateStatus_permitted _ _ _ _ _ hrole]
    simp only [findById_findByIdAndUpdate id _ (hid body), hc]
    rfl
  refine ⟨fun n hn => ?_, fun body => ?_⟩
  · rw [hgen]
    simp [statusUpdate, truthy, hn]
  · rw [hgen]
    rfl

theorem updateStatus_sets_status_witness :
    (∀ n : String, n ≠ "" →
      findById 11 (updateStatus 7000 { id := 3, role := "technician" } 11
          { status := "Resolved", repairNotes := some n } [leak, fixedFan]).2 =
        some { fixedFan with status := "Resolved", repairNotes := some n,
                             updatedAt := some 7000 }) ∧
    (∀ body : StatusBody,
      findById 11 (updateStatus 7000 { id := 3, role := "technician" } 11 body
          [leak, fixedFan]).2 =
        some { fixedFan with status := body.status, updatedAt := some 7000,
                             repairNotes := if truthy body.repairNotes then body.repairNotes
                                            else fixedFan.repairNotes }) :=
  updateStatus_sets_status 7000 { id := 3, role := "technician" } 11 [leak, fixedFan] fixedFan
    (by decide) (by decide)

/-! ## Register -/

theorem truthy_eq_false_iff (v : Option String) : truthy v = false ↔ missingOrEmpty v := by
  cases v with
  | none => simp [truthy, missingOrEmpty]
  | some s => simp [truthy, missingOrEmpty]

theorem truthy_iff (v : Option String) : truthy v = true ↔ ¬ missingOrEmpty v := by
  rw [← truthy_eq_false_iff]
  simp

theorem saveUser_ok (users users' : List User) (u : User) (h : saveUser users u = .ok users') :
    users' = users ++ [u] := by
  unfold saveUser at h
  split_ifs at h
  injection h with h
  exact h.symm

/-- The save branch either answers 500 and leaves the collection as it was, or
answers with a token and appends the document it built. -/
theorem saveAndSign_cases (hash : String → String) (errMessage : SaveError → String)
    (oid : Nat) (body : RegisterBody) (users : List User) :
    (∃ msg, saveAndSign hash errMessage oid body users = (.fail 500 msg, users)) ∨
    (∃ role, castRole body.role = some role ∧
      saveAndSign hash errMessage oid body users =
        (.json { token := { id := oid, role := role }
                 user := { id := oid, name := body.name,
                           email := (newUser hash oid body role).email, role := body.role } },
          users ++ [newUser hash oid body role])) := by
  unfold saveAndSign
  cases hc : castRole body.role with
  | none => exact Or.inl ⟨_, rfl⟩
  | some role =>
    dsimp only
    cases hs : saveUser users (newUser hash oid body role) with
    | error e => exact Or.inl ⟨_, rfl⟩
    | ok users' =>
      refine Or.inr ⟨role, rfl, ?_⟩
      rw [saveUser_ok _ _ _ hs]
      rfl

/-- The register route either fails and leaves the collection as it was, or
answers with a token and appends the document it built. -/
theorem register_store (hash : String → String) (errMessage : SaveError → String) (oid : Nat)
    (body : RegisterBody) (users : List User) :
    ((∃ code msg, (register hash errMessage oid body users).1 = .fail code msg)
      ∧ (register hash errMessage oid body users).2 = users) ∨
    (∃ p role, (register hash errMessage oid body users).1 = .json p ∧
      castRole body.role = some role ∧
      (register hash errMessage oid body users).2 = users ++ [newUser hash oid body role]) := by
  unfold register
  split_ifs with h1 h2 h3 h4
  · exact Or.inl ⟨⟨_, _, rfl⟩, rfl⟩
  · exact Or.inl ⟨⟨_, _, rfl⟩, rfl⟩
  · exact Or.inl ⟨⟨_, _, rfl⟩, rfl⟩
  · exact Or.inl ⟨⟨_, _, rfl⟩, rfl⟩
  · rcases saveAndSign_cases hash errMessage oid body users with ⟨msg, h⟩ | ⟨role, hc, h⟩
    · exact Or.inl ⟨⟨_, _, by rw [h]⟩, by rw [h]⟩
    · exact Or.inr ⟨_, role, by rw [h], hc, by rw [h]⟩

/-- A registration whose role is the string admin, whatever its other fields,
is answered with 403 (a failure, so without a token) and leaves the user
collection as it was. -/
theorem register_admin_string_forbidden (hash : String → String)
    (errMessage : SaveError → String) (oid : Nat) (body : RegisterBody) (users : List User)
    (h : body.role = .str "admin") :
    register hash errMessage oid body users =
      (.fail 403 "Admin cannot be registered. Use seed-admin.js script.", users) := by
  simp [register, h]

/-- C7, at the failing input: on the seeded collection, a registration whose
role is the object with `_id` admin passes the admin guard, is stored with role
admin and gets a token signed with role admin; the collection then holds two
admins where it held one. -/
theorem register_admin_object_stored :
    register seedHash seedErrMessage 6 adminObjectRegistration seedUsers =
      (.json { token := { id := 6, role := some "admin" }
               user := { id := 6, name := some "Eve", email := some "eve@campus.com",
                         role := .idObject "admin" } },
        seedUsers ++ [{ id := 6, name := "Eve", email := some "eve@campus.com",
                        password := seedHash "eve-pw", role := some "admin",
                        department := some "Facility" }]) ∧
    (admins seedUsers).length = 1 ∧
    (admins (register seedHash seedErrMessage 6 adminObjectRegistration seedUsers).2).length = 2 := by
  decide

theorem technician_check_iff (a b : Option String) :
    (!truthy a || !truthy b) = true ↔ missingOrEmpty a ∨ missingOrEmpty b := by
  simp [← truthy_eq_false_iff]

theorem all_fields_check_iff (a b c d : Option String) :
    (!truthy a || !truthy b || !truthy c || !truthy d) = true ↔
      missingOrEmpty a ∨ missingOrEmpty b ∨ missingOrEmpty c ∨ missingOrEmpty d := by
  simp [← truthy_eq_false_iff, or_assoc]

/-- The answer of the save branch of the register route is not a validation
failure. -/
theorem saveAndSign_not_validation (hash : String → String) (errMessage : SaveError → String)
    (oid : Nat) (body : RegisterBody) (users : List User) :
    ¬ isValidationError (saveAndSign hash errMessage oid body users).1 := by
  rcases saveAndSign_cases hash errMessage oid body users with ⟨msg, h⟩ | ⟨role, _, h⟩ <;>
    simp [h, isValidationError]

/-- A technician registration with a name and a password, whose password hash
is not empty, succeeds: the answer carries a token for the new user and the
stored user has the technician role, no email and no department. -/
theorem register_technician_ok (hash : String → String) (errMessage : SaveError → String)
    (oid : Nat) (body : RegisterBody) (users : List User)
    (ht : body.role = .str "technician") (hname : ¬ missingOrEmpty body.name)
    (hpw : ¬ missingOrEmpty body.password) (hhash : hash (body.password.getD "") ≠ "") :
    register hash errMessage oid body users =
      (.json { token := { id := oid, role := some "technician" }
               user := { id := oid, name := body.name, email := none, role := body.role } },
        users ++ [{ id := oid, name := body.name.getD "", email := none,
                    password := hash (body.password.getD ""), role := some "technician",
                    department := none }]) := by
  have hn : body.name.getD "" ≠ "" := by
    cases hb : body.name with
    | none => exact absurd (Or.inl hb) hname
    | some n =>
      intro h
      exact hname (Or.inr (by rw [hb]; simpa using h))
  have hcheck : ¬ (!truthy body.name || !truthy body.password) = true :=
    fun h => ((technician_check_iff _ _).mp h).elim hname hpw
  unfold register
  rw [if_neg (by rw [ht]; decide), if_neg (fun h => hcheck h.2), if_neg (fun h => h.1 ht),
    if_neg (fun h => h.1 ht)]
  simp [saveAndSign, castRole, ht, newUser, saveUser, hn, hhash, userRoles]

/-- C8: for a registration whose role is not the string admin: (1) with role
technician, the answer is a validation failure (400) exactly when name or
password is missing or empty; a registration with both succeeds (the password
hash being non-empty) and stores a user with the technician role, without email
and without department, whatever the request carried; and no successful
technician registration stores an email or a department; (2) with any other
role, the answer is a validation failure (400) exactly when one of name, email,
password, department is missing or empty; (3) a validation failure leaves the
user collection as it was. -/
theorem register_validation (hash : String → String) (errMessage : SaveError → String)
    (oid : Nat) (body : RegisterBody) (users : List User) (hna : body.role ≠ .str "admin") :
    (body.role = .str "technician" →
      (isValidationError (register hash errMessage oid body users).1 ↔
        missingOrEmpty body.name ∨ missingOrEmpty body.password) ∧
      (¬ missingOrEmpty body.name → ¬ missingOrEmpty body.password →
        hash (body.password.getD "") ≠ "" →
        register hash errMessage oid body users =
          (.json { token := { id := oid, role := some "technician" }
                   user := { id := oid, name := body.name, email := none, role := body.role } },
            users ++ [{ id := oid, name := body.name.getD "", email := none,
                        password := hash (body.password.getD ""), role := some "technician",
                        department := none }])) ∧
      (∀ p, (register hash errMessage oid body users).1 = .json p →
        ∃ u, (register hash errMessage oid body users).2 = users ++ [u] ∧
          u.email = none ∧ u.department = none)) ∧
    (body.role ≠ .str "technician" →
      (isValidationError (register hash errMessage oid body users).1 ↔
        missingOrEmpty body.name ∨ missingOrEmpty body.email ∨ missingOrEmpty body.password
          ∨ missingOrEmpty body.department)) ∧
    (isValidationError (register hash errMessage oid body users).1 →
      (register hash errMessage oid body users).2 = users) := by
  refine ⟨fun ht => ⟨?_, register_technician_ok hash errMessage oid body users ht, ?_⟩,
    fun ht => ?_, fun hv => ?_⟩
  · unfold register
    split_ifs with h1 h2 h3 h4
    · exact absurd h1 hna
    · have hyes := (technician_check_iff _ _).mp h2.2
      simp [isValidationError, hyes]
    · exact absurd ht h3.1
    · exact absurd ht h4.1
    · have hno : ¬ (missingOrEmpty body.name ∨ missingOrEmpty body.password) :=
        fun h => h2 ⟨ht, (technician_check_iff _ _).mpr h⟩
      simp only [hno, iff_false]
      exact saveAndSign_not_validation _ _ _ _ _
  · intro p hp
    rcases register_store hash errMessage oid body users with
      ⟨⟨code, msg, hf⟩, _⟩ | ⟨_, role, _, _, hstore⟩
    · rw [hf] at hp
      exact absurd hp (by simp)
    · exact ⟨_, hstore, by simp [newUser, ht], by simp [newUser, ht]⟩
  · unfold register
    split_ifs with h1 h2 h3 h4
    · exact absurd h1 hna
    · exact absurd h2.1 ht
    · have hyes := (all_fields_check_iff _ _ _ _).mp h3.2
      simp [isValidationError, hyes]
    · have hno : ¬ (missingOrEmpty body.name ∨ missingOrEmpty body.email ∨
          missingOrEmpty body.password ∨ missingOrEmpty body.department) :=
        fun h => h3 ⟨ht, (all_fields_check_iff _ _ _ _).mpr h⟩
      simp only [hno, iff_false]
      simp [isValidationError]
    · have hno : ¬ (missingOrEmpty body.name ∨ missingOrEmpty body.email ∨
          missingOrEmpty body.password ∨ missingOrEmpty body.department) :=
        fun h => h3 ⟨ht, (all_fields_check_iff _ _ _ _).mpr h⟩
      simp only [hno, iff_false]
      exact saveAndSign_not_validation _ _ _ _ _
  · rcases register_store hash errMessage oid body users with ⟨_, h⟩ | ⟨p, _, hp, _, _⟩
    · exact h
    · rw [hp] at hv
      exact absurd hv (by simp [isValidationError])

theorem register_validation_witness :
    register seedHash seedErrMessage 4 raviRegistration seedUsers =
      (.json { token := { id := 4, role := some "technician" }
               user := { id := 4, name := some "Ravi", email := none,
                         role := .str "technician" } },
        seedUsers ++ [{ id := 4, name := "Ravi", email := none,
                        password := seedHash "ravi-pw", role := some "technician",
                        department := none }]) ∧
    (isValidationError
        (register seedHash seedErrMessage 4 { raviRegistration with password := some "" }
          seedUsers).1 ↔
      missingOrEmpty raviRegistration.name ∨ missingOrEmpty (some "")) ∧
    (isValidationError
        (register seedHash seedErrMessage 5 { ashaRegistration with department := some "" }
          seedUsers).1 ↔
      missingOrEmpty ashaRegistration.name ∨ missingOrEmpty ashaRegistration.email ∨
        missingOrEmpty ashaRegistration.password ∨ missingOrEmpty (some "")) ∧
    (register seedHash seedErrMessage 5 { ashaRegistration with department := some "" }
      seedUsers).2 = seedUsers :=
  ⟨((register_validation seedHash seedErrMessage 4 raviRegistration seedUsers (by decide)).1
      (by decide)).2.1 (by decide) (by decide) (by decide),
   ((register_validation seedHash seedErrMessage 4 { raviRegistration with password := some "" }
      seedUsers (by decide)).1 (by decide)).1,
   (register_validation seedHash seedErrMessage 5
      { ashaRegistration with department := some "" } seedUsers (by decide)).2.1 (by decide),
   (register_validation seedHash seedErrMessage 5
      { ashaRegistration with department := some "" } seedUsers (by decide)).2.2
      (Or.inr (by decide))⟩

theorem mem_registerAll (errMessage : SaveError → String)
    (reqs : List ((String → String) × Nat × RegisterBody))
    (users : List User) (u : User) (hu : u ∈ users) : u ∈ registerAll errMessage users reqs := by
  induction reqs generalizing users with
  | nil => exact hu
  | cons r reqs ih =>
    obtain ⟨hash, oid, body⟩ := r
    simp only [registerAll]
    apply ih
    rcases register_store hash errMessage oid body users with ⟨_, h⟩ | ⟨_, _, _, _, h⟩
    · rw [h]; exact hu
    · rw [h]; exact List.mem_append_left _ hu

/-- A valid registration with a role other than admin and technician, whose email
some stored user has, is answered with the Conflict failure. -/
theorem register_conflict (hash : String → String) (errMessage : SaveError → String)
    (oid : Nat) (body : RegisterBody)
    (store : List User) (hadmin : body.role ≠ .str "admin")
    (htech : body.role ≠ .str "technician")
    (hall : ¬ (missingOrEmpty body.name ∨ missingOrEmpty body.email ∨
      missingOrEmpty body.password ∨ missingOrEmpty body.department))
    (hfound : (findOne (fun u => u.email == body.email) store).isSome = true) :
    register hash errMessage oid body store = (emailConflict, store) := by
  unfold register
  rw [if_neg hadmin, if_neg (fun h => htech h.1),
    if_neg (fun h => hall ((all_fields_check_iff _ _ _ _).mp h.2)), if_pos ⟨htech, hfound⟩]
  rfl

/-- C9: (1) after a registration with a role other than technician has
succeeded, and after any further register calls, a registration that is valid
(all four fields non-empty), has a role other than admin and technician and
carries the same email is answered with the Conflict failure and adds no user;
(2) a registration with role technician is never answered with the Conflict
failure, whatever email it carries and whatever the collection holds. -/
theorem register_duplicate_email (hash₁ hash₂ : String → String)
    (errMessage : SaveError → String) (oid₁ oid₂ : Nat)
    (first second : RegisterBody) (users : List User) (p : AuthPayload)
    (between : List ((String → String) × Nat × RegisterBody))
    (hok : (register hash₁ errMessage oid₁ first users).1 = .json p)
    (hrole₁ : first.role ≠ .str "technician")
    (hadmin : second.role ≠ .str "admin") (htech : second.role ≠ .str "technician")
    (hname : ¬ missingOrEmpty second.name) (hemail : ¬ missingOrEmpty second.email)
    (hpw : ¬ missingOrEmpty second.password) (hdept : ¬ missingOrEmpty second.department)
    (hsame : second.email = first.email) :
    register hash₂ errMessage oid₂ second
        (registerAll errMessage (register hash₁ errMessage oid₁ first users).2 between) =
      (emailConflict,
        registerAll errMessage (register hash₁ errMessage oid₁ first users).2 between) ∧
    (∀ (hash : String → String) (oid : Nat) (body : RegisterBody) (store : List User),
      body.role = .str "technician" →
        (register hash errMessage oid body store).1 ≠ emailConflict) := by
  constructor
  · obtain ⟨role, hstore⟩ : ∃ role, (register hash₁ errMessage oid₁ first users).2 =
        users ++ [newUser hash₁ oid₁ first role] := by
      rcases register_store hash₁ errMessage oid₁ first users with
        ⟨⟨code, msg, hf⟩, _⟩ | ⟨_, role, _, _, h⟩
      · rw [hf] at hok
        exact absurd hok (by simp)
      · exact ⟨role, h⟩
    have hmem : newUser hash₁ oid₁ first role ∈
        registerAll errMessage (register hash₁ errMessage oid₁ first users).2 between :=
      mem_registerAll _ _ _ _ (by rw [hstore]; simp)
    have hfound : (findOne (fun u => u.email == second.email)
        (registerAll errMessage (register hash₁ errMessage oid₁ first users).2
          between)).isSome = true := by
      simp only [findOne, List.find?_isSome]
      exact ⟨_, hmem, by simp [newUser, hrole₁, hsame]⟩
    have hall : ¬ (missingOrEmpty second.name ∨ missingOrEmpty second.email ∨
        missingOrEmpty second.password ∨ missingOrEmpty second.department) := by
      rintro (h | h | h | h)
      exacts [hname h, hemail h, hpw h, hdept h]
    exact register_conflict _ _ _ _ _ hadmin htech hall hfound
  · intro hash oid body store ht
    unfold register
    split_ifs with h1 h2 h3 h4
    · simp [emailConflict]
    · simp [emailConflict]
    · exact absurd ht h3.1
    · exact absurd ht h4.1
    · rcases saveAndSign_cases hash errMessage oid body store with ⟨msg, h⟩ | ⟨role, _, h⟩ <;>
        simp [h, emailConflict]

theorem register_duplicate_email_witness :
    register seedHash seedErrMessage 7
        { ashaRegistration with name := some "Asha again", role := .str "faculty" }
        (registerAll seedErrMessage
          (register seedHash seedErrMessage 5 ashaRegistration seedUsers).2
          [(seedHash, 6, raviRegistration)]) =
      (emailConflict, registerAll seedErrMessage
          (register seedHash seedErrMessage 5 ashaRegistration seedUsers).2
          [(seedHash, 6, raviRegistration)]) ∧
    (∀ (hash : String → String) (oid : Nat) (body : RegisterBody) (store : List User),
      body.role = .str "technician" →
        (register hash seedErrMessage oid body store).1 ≠ emailConflict) :=
  register_duplicate_email seedHash seedHash seedErrMessage 5 7 ashaRegistration
    { ashaRegistration with name := some "Asha again", role := .str "faculty" } seedUsers
    { token := { id := 5, role := some "student" }
      user := { id := 5, name := some "Asha", email := some "asha@campus.com",
                role := .str "student" } }
    [(seedHash, 6, raviRegistration)]
    (by decide) (by decide) (by decide) (by decide) (by decide) (by decide) (by decide)
    (by decide) (by decide)

/-! ## Create -/

/-- C11: for every authenticated identity and every body, with or without an
image, and whatever status, assignee or repair notes the body carries, the
create route answers with, and appends to the collection, a complaint whose
status is Pending, with no assignee and no repair notes, owned by the
identity's id. -/
theorem createComplaint_pending (oid : Nat) (now : Int) (user : Token) (body : ComplaintBody)
    (file : Option String) (cs : List Complaint) :
    ∃ c : Complaint,
      (createComplaint oid now user body file cs).1 = .json c ∧
      (createComplaint oid now user body file cs).2 = cs ++ [c] ∧
      c.status = "Pending" ∧ c.assignedTo = none ∧ c.repairNotes = none ∧
      c.userId = user.id :=
  ⟨_, rfl, rfl, rfl, rfl, rfl, rfl⟩

/-- The create route on a body that sends status, assignee and notes of its
own, with an image: none of the three is taken over. -/
theorem createComplaint_preset_ignored :
    createComplaint 12 8000 { id := 5, role := "student" } presetBody (some "8000-tap.png") [leak] =
      (.json { id := 12, userId := 5, category := some "Plumbing", title := some "Leak",
               description := some "Tap leaks", imagePath := some "/uploads/8000-tap.png",
               status := "Pending", assignedTo := none, repairNotes := none,
               createdAt := 8000, updatedAt := none },
        [leak, { id := 12, userId := 5, category := some "Plumbing", title := some "Leak",
                 description := some "Tap leaks", imagePath := some "/uploads/8000-tap.png",
                 status := "Pending", assignedTo := none, repairNotes := none,
                 createdAt := 8000, updatedAt := none }]) := by
  decide

/-! ## Authorize -/

/-- C12: for every identity and every list of allowed roles, `authorize`
answers 403 whatever the handler is, leaving the state as it was (the handler
is not run), exactly when the identity's role is not one of the allowed roles;
and when the role is one of them, the outcome is the handler's own. -/
theorem authorize_rejects_iff {σ α : Type} [Inhabited σ] (roles : List String) (user : Token) :
    ((∀ (next : σ → Res α × σ) (s : σ),
        authorize roles user next s = (.fail 403 "Access denied", s)) ↔
      ¬ user.role ∈ roles) ∧
    (user.role ∈ roles →
      ∀ (next : σ → Res α × σ) (s : σ), authorize roles user next s = next s) := by
  refine ⟨⟨fun h hmem => ?_, fun h next s => authorize_denied roles user next s h⟩,
    fun h next s => authorize_granted roles user next s h⟩
  have h1 := h (fun s => (.fail 200 "handler", s)) default
  rw [authorize_granted roles user _ _ hmem] at h1
  simp at h1

theorem authorize_rejects_iff_witness :
    authorize ["admin"] { id := 5, role := "student" }
        (fun cs : List Complaint => ((.json (buildReport cs) : Res Report), cs)) [leak] =
      (.fail 403 "Access denied", [leak]) ∧
    authorize ["admin", "technician"] { id := 2, role := "technician" }
        (fun cs : List Complaint => ((.json (buildReport cs) : Res Report), cs)) [leak] =
      (.json (buildReport [leak]), [leak]) :=
  ⟨(authorize_rejects_iff ["admin"] { id := 5, role := "student" }).1.mpr (by decide) _ _,
   (authorize_rejects_iff ["admin", "technician"] { id := 2, role := "technician" }).2
     (by decide) _ _⟩

end ComplaintPortal
